import Mathlib

/-!
Verification development for the `SheetController` spreadsheet-region
controller (Google Apps Script).  The controller configuration and cache
logic (`setSheetControllerParam`, `reflashLastRow`, `reflashLastColumn`,
`getLastRow`, `getLastColumn`, range builders, header lookups) is embedded
below, translated statement by statement from the JavaScript source.
The external Tabular Resource (spreadsheet grid with its populated-cell
scan primitive) is not part of the repository; it is modelled from the
spec's interface description (spec sections 4 and 6).
-/

namespace SheetCtrl

/-- A spreadsheet cell value.  `vEmpty` is a blank cell (whose `getValue()`
is the empty string, hence JS-falsy); numbers, strings and booleans carry
their JS truthiness. -/
inductive Value where
  | vEmpty
  | vStr (s : String)
  | vNum (n : Int)
  | vBool (b : Bool)
deriving DecidableEq, Repr

/-- JS truthiness of a cell's `getValue()` result. -/
def Value.truthy : Value → Bool
  | .vEmpty => false
  | .vStr s => decide (s ≠ "")
  | .vNum n => decide (n ≠ 0)
  | .vBool b => b

/-- A sheet: a physical grid with fixed bounds.  Cells are addressed
1-based; positions outside the grid read as blank for concrete sheets
built with `sheetOfGrid`. -/
structure Sheet where
  maxRows : Nat
  maxColumns : Nat
  cells : Nat → Nat → Value

/-- A cell counts as data (for the populated-cell scans) iff it is not blank. -/
def Sheet.populatedAt (s : Sheet) (r c : Nat) : Bool :=
  decide (s.cells r c ≠ Value.vEmpty)

/-- Build a concrete sheet from a row-major grid (1-based addressing;
out-of-grid positions are blank). -/
def sheetOfGrid (maxR maxC : Nat) (g : List (List Value)) : Sheet :=
  { maxRows := maxR, maxColumns := maxC,
    cells := fun r c => (g.getD (r - 1) []).getD (c - 1) Value.vEmpty }

/-- A freshly inserted sheet: blank, with the platform's default grid size. -/
def Sheet.blank : Sheet :=
  { maxRows := 1000, maxColumns := 26, cells := fun _ _ => Value.vEmpty }

/-- Modelled from the spec: part of the Tabular Resource scan primitive
`Cell.nextPopulatedCellInDirection(UP)` (spec section 6), which is not in the
repository.  Nearest populated row at or below the given row (scanning
rows `r, r-1, ..., 1` in column `c`), `none` when all are blank. -/
def firstPopUpFrom (s : Sheet) (c : Nat) : Nat → Option Nat
  | 0 => none
  | r + 1 => if s.populatedAt (r + 1) c then some (r + 1) else firstPopUpFrom s c r

/-- Modelled from the spec: top edge of the contiguous populated run that
contains the given row (used by the UP scan when it starts inside a data
block, the behaviour section 4's degenerate-case rationale relies on). -/
def runTop (s : Sheet) (c : Nat) : Nat → Nat
  | 0 => 1
  | r + 1 => if 1 ≤ r ∧ s.populatedAt r c then runTop s c r else r + 1

/-- Modelled from the spec: the Tabular Resource scan primitive
`Cell.nextPopulatedCellInDirection(UP)` (spec sections 4 and 6), i.e. GAS
`getNextDataCell(Direction.UP)` from the cell at `(row, c)`: from inside a
data block it jumps past the contiguous block, otherwise to the nearest
populated cell above, or to row 1 at the sheet edge. -/
def nextDataCellUpRow (s : Sheet) (c : Nat) (row : Nat) : Nat :=
  if s.populatedAt row c ∧ s.populatedAt (row - 1) c ∧ 2 ≤ row then
    runTop s c row
  else
    match firstPopUpFrom s c (row - 1) with
    | some r => r
    | none => 1

/-- Modelled from the spec: nearest populated column at or after column `c`
in row `r`, bounded by the sheet width (fuel-driven recursion). -/
def firstPopRightFrom (s : Sheet) (r : Nat) : Nat → Nat → Option Nat
  | _, 0 => none
  | c, fuel + 1 =>
      if s.maxColumns < c then none
      else if s.populatedAt r c then some c
      else firstPopRightFrom s r (c + 1) fuel

/-- Modelled from the spec: right edge of the contiguous populated run
starting at column `c` in row `r`, capped at the sheet width. -/
def runRight (s : Sheet) (r : Nat) : Nat → Nat → Nat
  | c, 0 => c
  | c, fuel + 1 =>
      if c + 1 ≤ s.maxColumns ∧ s.populatedAt r (c + 1) then runRight s r (c + 1) fuel
      else c

/-- Modelled from the spec: the Tabular Resource scan primitive
`Cell.nextPopulatedCellInDirection(NEXT)` (spec sections 4 and 6), i.e. GAS
`getNextDataCell(Direction.NEXT)` from the cell at `(r, c)`: from inside a
data run it jumps to the run's right edge, otherwise to the nearest
populated cell to the right, or to the last physical column at the edge. -/
def nextDataCellRightCol (s : Sheet) (r : Nat) (c : Nat) : Nat :=
  if s.populatedAt r c ∧ s.populatedAt r (c + 1) ∧ c + 1 ≤ s.maxColumns then
    runRight s r c s.maxColumns
  else
    match firstPopRightFrom s r (c + 1) (s.maxColumns + 1) with
    | some cc => cc
    | none => s.maxColumns

/-- `SheetController.getLastRow` (source lines 203-212): probe the key
column from the bottommost physical row with the UP scan; if the bottom
cell's value is truthy and the scan landed at or above the header row,
report the bottom row itself. -/
def getLastRow (s : Sheet) (keyColumn headerRow : Nat) : Nat :=
  let lastRow := nextDataCellUpRow s keyColumn s.maxRows
  if (s.cells s.maxRows keyColumn).truthy ∧ lastRow ≤ headerRow then s.maxRows
  else lastRow

/-- `SheetController.getLastColumn` (source lines 220-223): probe the
header row from the start column with the NEXT (rightward) scan. -/
def getLastColumn (s : Sheet) (headerRow startColumn : Nat) : Nat :=
  nextDataCellRightCol s headerRow startColumn

example : getLastRow (sheetOfGrid 5 1 [[Value.vStr "h"], [Value.vStr "a"], [Value.vStr "b"]]) 1 1 = 3 := by decide

example : getLastRow (sheetOfGrid 3 1 [[Value.vStr "h"], [Value.vStr "a"], [Value.vStr "b"]]) 1 1 = 3 := by decide

example : getLastColumn (sheetOfGrid 3 4 [[Value.vStr "h1", Value.vStr "h2", Value.vStr "h3"]]) 1 1 = 3 := by decide

example : getLastColumn (sheetOfGrid 3 4 []) 1 1 = 4 := by decide

/-- A workbook: a list of named sheets (insertion order). -/
structure Book where
  sheetsList : List (String × Sheet)

/-- `book.getSheets().map(sheet => sheet.getSheetName())`. -/
def Book.sheetNames (b : Book) : List String :=
  b.sheetsList.map Prod.fst

/-- `book.getSheetByName(name)`. -/
def Book.getSheetByName (b : Book) (name : String) : Option Sheet :=
  (b.sheetsList.find? (fun p => decide (p.1 = name))).map Prod.snd

/-- `book.insertSheet(name)`: appends a fresh blank sheet and returns the
updated book together with the new sheet. -/
def Book.insertSheet (b : Book) (name : String) : Book × Sheet :=
  ({ sheetsList := b.sheetsList ++ [(name, Sheet.blank)] }, Sheet.blank)

/-- Replace the named sheet's grid (mirrors that a JS sheet object written
through a range handle is the same object the book holds). -/
def Book.withSheet (b : Book) (name : String) (s : Sheet) : Book :=
  { sheetsList := b.sheetsList.map (fun p => if p.1 = name then (p.1, s) else p) }

/-- Modelled from the spec: the ambient platform (`SpreadsheetApp`),
providing `openById` (which can fail) and the active spreadsheet. -/
structure Env where
  openById : String → Option Book
  active : Book

/-- `SheetControllerParam`: a partial configuration object; `none` models a
JS-absent (`undefined`) field. -/
structure SheetControllerParam where
  bookId : Option String := none
  sheetName : Option String := none
  headerRow : Option Nat := none
  startColumn : Option Nat := none
  keyColumn : Option Nat := none

/-- JS truthiness filter for an optional string (`undefined` and `""` are
falsy). -/
def jsTruthyStr (o : Option String) : Option String :=
  match o with
  | some s => if s = "" then none else some s
  | none => none

/-- JS truthiness filter for an optional number (`undefined` and `0` are
falsy). -/
def jsTruthyNat (o : Option Nat) : Option Nat :=
  match o with
  | some n => if n = 0 then none else some n
  | none => none

/-- JS `o || d` for an optional number (source line 247-248): absent and
`0` fall back to `d`; every other value (negatives included) is kept. -/
def jsOrInt (o : Option Int) (d : Int) : Int :=
  match o with
  | some v => if v = 0 then d else v
  | none => d

/-- The controller's instance state: configuration fields plus the two
cached derived pairs (A: `lastRow`/`rowNum`, B: `lastColumn`/`columnNum`/
`header`). -/
structure SheetController where
  book : Book
  sheetName : String
  sheet : Sheet
  headerRow : Nat
  dataStartRow : Nat
  startColumn : Nat
  keyColumn : Nat
  lastRow : Nat
  rowNum : Int
  lastColumn : Nat
  columnNum : Int
  header : List Value

/-- The four dirty flags `setSheetControllerParam` tracks (source lines
46, 67, 93, 118). -/
structure Flags where
  changeBookId : Bool
  changeSheetName : Bool
  changeHeaderRow : Bool
  changeStartColumn : Bool

/-- Whether any of the four dirty flags is set (source line 146). -/
def Flags.anySet (f : Flags) : Bool :=
  f.changeBookId || f.changeSheetName || f.changeHeaderRow || f.changeStartColumn

/-- Boundary scans a call issues against the resource. -/
inductive ScanEvent where
  | rowScan
  | colScan
deriving DecidableEq, Repr

/-- Book resolution step of `setSheetControllerParam` (source lines 46-64):
a truthy `bookId` is opened (failure propagates); otherwise a missing book
(first initialization) falls back to the active spreadsheet; an existing
book is kept with the flag clear. -/
def resolveBook (env : Env) (prev : Option SheetController) (bookId : Option String) :
    Option (Book × Bool) :=
  match jsTruthyStr bookId with
  | some id => (env.openById id).map (fun b => (b, true))
  | none =>
      match prev with
      | none => some (env.active, true)
      | some c => some (c.book, false)

/-- Result of the sheet resolution step. -/
structure SheetResolution where
  book : Book
  sheetName : String
  sheet : Sheet
  changed : Bool

/-- Sheet resolution step of `setSheetControllerParam` (source lines
67-90): re-resolve the sheet when a truthy `sheetName` is supplied or the
book changed, creating the sheet when the name is absent from the book. -/
def resolveSheet (prev : Option SheetController) (p : Option String) (book0 : Book)
    (changeBookId : Bool) : SheetResolution :=
  let prevName := (prev.map (fun c => c.sheetName)).getD ""
  if (jsTruthyStr p).isSome || changeBookId then
    let name := (jsTruthyStr p).getD prevName
    if name ∈ book0.sheetNames then
      { book := book0, sheetName := name,
        sheet := (book0.getSheetByName name).getD Sheet.blank, changed := true }
    else
      let bs := book0.insertSheet name
      { book := bs.1, sheetName := name, sheet := bs.2, changed := true }
  else
    { book := book0, sheetName := prevName,
      sheet := (prev.map (fun c => c.sheet)).getD Sheet.blank, changed := false }

/-- Merge step shared by `headerRow` (source lines 93-105) and
`startColumn` (source lines 118-130): a truthy supplied value wins (flag
set); otherwise a still-unset field gets default 1 (flag set); otherwise
the previous value is kept (flag clear). -/
def mergeNatField (prevVal : Nat) (p : Option Nat) : Nat × Bool :=
  match jsTruthyNat p with
  | some v => (v, true)
  | none => if prevVal = 0 then (1, true) else (prevVal, false)

/-- `keyColumn` merge (source lines 133-143): explicit value wins; else it
tracks the start column exactly when the start-column flag is set; else it
is left unchanged. -/
def mergeKeyColumn (prevKey : Nat) (p : Option Nat) (changeStartColumn : Bool)
    (newStart : Nat) : Nat :=
  match jsTruthyNat p with
  | some k => k
  | none => if changeStartColumn then newStart else prevKey

/-- Configuration-merge stage of `setSheetControllerParam` after the book
has been resolved (source lines 67-143): computes the new configuration and
the four dirty flags; cached fields are carried over unchanged (they are
refreshed afterwards when a flag is set). -/
def setParamRest (prev : Option SheetController) (param : SheetControllerParam)
    (book0 : Book) (changeBookId : Bool) : SheetController × Flags :=
  let sres := resolveSheet prev param.sheetName book0 changeBookId
  let hr := mergeNatField ((prev.map (fun c => c.headerRow)).getD 0) param.headerRow
  let dataStartRow := if hr.2 then hr.1 + 1 else (prev.map (fun c => c.dataStartRow)).getD 0
  let sc := mergeNatField ((prev.map (fun c => c.startColumn)).getD 0) param.startColumn
  let kc := mergeKeyColumn ((prev.map (fun c => c.keyColumn)).getD 0) param.keyColumn sc.2 sc.1
  ({ book := sres.book, sheetName := sres.sheetName, sheet := sres.sheet,
     headerRow := hr.1, dataStartRow := dataStartRow, startColumn := sc.1, keyColumn := kc,
     lastRow := (prev.map (fun c => c.lastRow)).getD 0,
     rowNum := (prev.map (fun c => c.rowNum)).getD 0,
     lastColumn := (prev.map (fun c => c.lastColumn)).getD 0,
     columnNum := (prev.map (fun c => c.columnNum)).getD 0,
     header := (prev.map (fun c => c.header)).getD [] },
   { changeBookId := changeBookId, changeSheetName := sres.changed,
     changeHeaderRow := hr.2, changeStartColumn := sc.2 })

/-- The whole configuration-merge stage of `setSheetControllerParam`
(source lines 46-143): book resolution then field merges; `none` models the
thrown resource-open error. -/
def setParamStage (env : Env) (prev : Option SheetController) (param : SheetControllerParam) :
    Option (SheetController × Flags) :=
  (resolveBook env prev param.bookId).map (fun bc => setParamRest prev param bc.1 bc.2)

/-- `RangeAddress` (source lines 1-10): `rowNum`/`columnNum` optional. -/
structure RangeAddress where
  startRow : Nat
  startColumn : Nat
  rowNum : Option Int := none
  columnNum : Option Int := none

/-- A resolved rectangular range handle (GAS `Range` coordinates). -/
structure RangeH where
  startRow : Nat
  startColumn : Nat
  rowNum : Int
  columnNum : Int
deriving DecidableEq, Repr

/-- `SheetController.getRange` (source lines 244-251): absent (and JS-falsy,
i.e. zero) `rowNum`/`columnNum` default to 1.  This is the address
arithmetic of the method; the Tabular Resource's own acceptance of the
forwarded dimensions is `getRangeResource` below. -/
def SheetController.getRange (_st : SheetController) (p : RangeAddress) : RangeH :=
  { startRow := p.startRow, startColumn := p.startColumn,
    rowNum := jsOrInt p.rowNum 1, columnNum := jsOrInt p.columnNum 1 }

/-- Modelled from the spec: the full `this._sheet.getRange(startRow,
startColumn, rowNum, columnNum)` call of source line 250 as the Tabular
Resource executes it — the resource rejects a request whose dimensions
are not positive (ResourceBoundsError, spec sections 4 and 7, surfaced
unmodified and modelled as `none`); otherwise the range handle is
returned. -/
def getRangeResource (st : SheetController) (p : RangeAddress) : Option RangeH :=
  if 1 ≤ (st.getRange p).rowNum ∧ 1 ≤ (st.getRange p).columnNum then
    some (st.getRange p)
  else none

/-- `Range.getValues()` on the given sheet: a `rowNum × columnNum` block of
cell values (non-positive extents give an empty dimension). -/
def rangeValues (s : Sheet) (r : RangeH) : List (List Value) :=
  (List.range r.rowNum.toNat).map (fun i =>
    (List.range r.columnNum.toNat).map (fun j =>
      s.cells (r.startRow + i) (r.startColumn + j)))

/-- `Range.setValues(vals)` on the given sheet: writes the block `vals` at
the range's top-left corner. -/
def Sheet.writeValues (s : Sheet) (row col : Nat) (vals : List (List Value)) : Sheet :=
  { s with cells := fun r c =>
      if row ≤ r ∧ r < row + vals.length ∧ col ≤ c ∧
          c < col + (vals.getD (r - row) []).length then
        (vals.getD (r - row) []).getD (c - col) Value.vEmpty
      else s.cells r c }

/-- `SheetController.getHeaderRange` (source lines 307-315): one row at
`headerRow`, `columnNum` columns from `startColumn` (no `rowNum` given). -/
def getHeaderRange (st : SheetController) : RangeH :=
  st.getRange { startRow := st.headerRow, startColumn := st.startColumn,
                columnNum := some st.columnNum }

/-- `SheetController.reflashLastRow` (source lines 155-169): recompute
cached pair A (`lastRow`, `rowNum`) from a fresh row-boundary scan. -/
def reflashLastRow (st : SheetController) : SheetController :=
  let lastRow := getLastRow st.sheet st.keyColumn st.headerRow
  { st with lastRow := lastRow,
            rowNum := (lastRow : Int) - (st.dataStartRow : Int) + 1 }

/-- `SheetController.reflashLastColumn` (source lines 174-195): recompute
cached pair B (`lastColumn`, `columnNum`, `header`) from a fresh
column-boundary scan; the header cache is re-read through
`getHeaderRange` using the just-updated `columnNum`. -/
def reflashLastColumn (st : SheetController) : SheetController :=
  let lastColumn := getLastColumn st.sheet st.headerRow st.startColumn
  let st1 := { st with lastColumn := lastColumn,
                       columnNum := (lastColumn : Int) - (st.startColumn : Int) + 1 }
  { st1 with header := (rangeValues st1.sheet (getHeaderRange st1)).flatten }

/-- Final step of `setSheetControllerParam` (source lines 146-149): when
any dirty flag is set, refresh pair A then pair B (issuing the two
boundary scans); otherwise leave the cache untouched. -/
def applyReflash (p : SheetController × Flags) : SheetController × List ScanEvent :=
  if p.2.anySet then
    (reflashLastColumn (reflashLastRow p.1), [ScanEvent.rowScan, ScanEvent.colScan])
  else (p.1, [])

/-- `SheetController.setSheetControllerParam` (source lines 45-150), the
single entry point used both by the constructor (`prev = none`) and by
configuration updates (`prev = some c`).  Also returns the list of
boundary scans the call issued. -/
def setSheetControllerParam (env : Env) (prev : Option SheetController)
    (param : SheetControllerParam) : Option (SheetController × List ScanEvent) :=
  (setParamStage env prev param).map applyReflash

/-- `SheetController.outputHeader` (source lines 325-337): write the
header array as a single row at `(headerRow, startColumn)` sized to its
length, then refresh pair B only. -/
def outputHeader (st : SheetController) (headerArray : List Value) :
    SheetController × RangeH :=
  let rng := st.getRange { startRow := st.headerRow, startColumn := st.startColumn,
                           columnNum := some (headerArray.length : Int) }
  let sheet1 := st.sheet.writeValues rng.startRow rng.startColumn [headerArray]
  let st1 := { st with sheet := sheet1, book := st.book.withSheet st.sheetName sheet1 }
  (reflashLastColumn st1, rng)

/-- `SheetController.outputDataArea` (source lines 364-377): write the
data block at `(dataStartRow, startColumn)` sized to the block, then
refresh pair A only. -/
def outputDataArea (st : SheetController) (outputDataArray : List (List Value)) :
    SheetController × RangeH :=
  let rng := st.getRange { startRow := st.dataStartRow, startColumn := st.startColumn,
                           rowNum := some (outputDataArray.length : Int),
                           columnNum := some (((outputDataArray.getD 0 []).length : Int)) }
  let sheet1 := st.sheet.writeValues rng.startRow rng.startColumn outputDataArray
  let st1 := { st with sheet := sheet1, book := st.book.withSheet st.sheetName sheet1 }
  (reflashLastRow st1, rng)

/-- `Array.prototype.indexOf` on a value list: 0-based position of the
first exact match, `none` when absent. -/
def valueIndexOf (v : Value) : List Value → Option Nat
  | [] => none
  | x :: xs => if x = v then some 0 else (valueIndexOf v xs).map (fun i => i + 1)

/-- `SheetController.getHeaderArrayIndexByColumnName` (source lines
387-393): linear search of the cached header; `none` models the thrown
column-not-found error. -/
def getHeaderArrayIndexByColumnName (st : SheetController) (columnName : String) :
    Option Nat :=
  valueIndexOf (Value.vStr columnName) st.header

/-- `SheetController.getHeaderColumnByColumnName` (source lines 403-406):
the header-array index shifted by `startColumn`. -/
def getHeaderColumnByColumnName (st : SheetController) (columnName : String) :
    Option Nat :=
  (getHeaderArrayIndexByColumnName st columnName).map (fun i => i + st.startColumn)

/-- A small concrete sheet used by witnesses: 6 rows × 8 columns, header
`A B` in row 1, one data row; roomy enough that every configuration used
by the examples and witnesses stays inside the physical grid. -/
def demoSheet : Sheet :=
  sheetOfGrid 6 8
    [[Value.vStr "A", Value.vStr "B"],
     [Value.vStr "a1", Value.vStr "b1"]]

/-- A concrete book holding `demoSheet` under the name `S`. -/
def demoBook : Book :=
  { sheetsList := [("S", demoSheet)] }

/-- A second concrete book (for resource-switch scenarios). -/
def demoBook2 : Book :=
  { sheetsList := [("S", sheetOfGrid 3 3 [[Value.vStr "H"]])] }

/-- A concrete environment: `B2` opens `demoBook2`, everything else fails;
the active spreadsheet is `demoBook`. -/
def demoEnv : Env :=
  { openById := fun id => if id = "B2" then some demoBook2 else none,
    active := demoBook }

example :
    (setSheetControllerParam demoEnv none { sheetName := some "S" }).map
      (fun p => (p.1.headerRow, p.1.dataStartRow, p.1.startColumn, p.1.keyColumn)) =
      some (1, 2, 1, 1) := by decide

example :
    (setSheetControllerParam demoEnv none { sheetName := some "S" }).map
      (fun p => (p.1.lastRow, p.1.rowNum, p.1.lastColumn, p.1.columnNum)) =
      some (2, 1, 2, 2) := by decide

example :
    (setSheetControllerParam demoEnv none { sheetName := some "S" }).map
      (fun p => p.2) = some [ScanEvent.rowScan, ScanEvent.colScan] := by decide

example :
    (setSheetControllerParam demoEnv none { sheetName := some "S" }).map
      (fun p => p.1.header) = some [Value.vStr "A", Value.vStr "B"] := by decide

-- Sanity: an update changing the bookId retains startColumn/headerRow.
example :
    ((setSheetControllerParam demoEnv none
        { sheetName := some "S", headerRow := some 2, startColumn := some 3 }).bind
      (fun p => setSheetControllerParam demoEnv (some p.1) { bookId := some "B2" })).map
      (fun p => (p.1.startColumn, p.1.headerRow, p.1.keyColumn)) = some (3, 2, 3) := by decide

-- Sanity: the key-column tracking chain of spec property P4.
example :
    ((setSheetControllerParam demoEnv none
        { sheetName := some "S", startColumn := some 3 }).bind
      (fun p => setSheetControllerParam demoEnv (some p.1) { startColumn := some 7 })).map
      (fun p => p.1.keyColumn) = some 7 := by decide

example :
    (((setSheetControllerParam demoEnv none
        { sheetName := some "S", startColumn := some 3 }).bind
      (fun p => setSheetControllerParam demoEnv (some p.1) { startColumn := some 7 })).bind
      (fun p => setSheetControllerParam demoEnv (some p.1) { headerRow := some 2 })).map
      (fun p => p.1.keyColumn) = some 7 := by decide

-- Sanity: a fully populated key column whose bottom cell holds the falsy value 0.
def falsyBottomSheet : Sheet :=
  sheetOfGrid 3 1 [[Value.vStr "x"], [Value.vStr "y"], [Value.vNum 0]]
example : getLastRow falsyBottomSheet 1 1 = 1 := by decide
example : falsyBottomSheet.populatedAt 3 1 = true := by decide
example : nextDataCellUpRow falsyBottomSheet 1 3 = 1 := by decide

-- Sanity: a fully truthy key column reports the physical last row.
example : getLastRow (sheetOfGrid 3 1 [[Value.vStr "x"], [Value.vStr "y"], [Value.vStr "z"]]) 1 1 = 3 := by decide

/-- A truthy cell value is not blank. -/
theorem Value.truthy_ne_empty {v : Value} (h : v.truthy = true) : v ≠ Value.vEmpty := by
  intro he
  subst he
  exact Bool.noConfusion h

/-- The UP-scan run-top lands on row 1 when every row from 1 to `n` of the
column is populated. -/
theorem runTop_eq_one (s : Sheet) (c : Nat) (n : Nat)
    (h : ∀ r, 1 ≤ r → r ≤ n → s.populatedAt r c = true) : runTop s c n = 1 := by
  induction n with
  | zero => rfl
  | succ n ih =>
    rw [runTop]
    by_cases hn : 1 ≤ n
    · have hp : s.populatedAt n c = true := h n hn (Nat.le_succ n)
      rw [if_pos ⟨hn, hp⟩]
      exact ih (fun r h1 h2 => h r h1 (Nat.le_succ_of_le h2))
    · have hn0 : n = 0 := by omega
      subst hn0
      rw [if_neg]
      intro hcon
      exact absurd hcon.1 (by omega)

/-- C2 counterexample: in `falsyBottomSheet` the key column is populated
in every physical row (1, 2 and 3 = maxRows), the upward scan lands at
row 1, at or above header row 1, and the bottom cell holds a value (the
number 0), so the claim says `getLastRow` returns the physical last row 3;
the code returns 1, because the guard tests JS truthiness of the bottom
cell's value and `0` is falsy. -/
theorem getLastRow_claim_counterexample :
    falsyBottomSheet.maxRows = 3 ∧
    falsyBottomSheet.populatedAt 1 1 = true ∧
    falsyBottomSheet.populatedAt 2 1 = true ∧
    falsyBottomSheet.populatedAt 3 1 = true ∧
    falsyBottomSheet.cells 3 1 = Value.vNum 0 ∧
    nextDataCellUpRow falsyBottomSheet 1 3 ≤ 1 ∧
    getLastRow falsyBottomSheet 1 1 = 1 ∧
    getLastRow falsyBottomSheet 1 1 ≠ 3 := by decide

/-- C2 (amended): `getLastRow` returns the row reached by the upward
boundary scan from the bottommost physical row of the key column, except
that when the bottom cell's value is JS-truthy and the scan landed at or
above the header row it returns the bottommost physical row instead; in
particular a sheet whose key column holds truthy values all the way down
to its last physical row reports `lastRow` equal to that physical last
row. -/
theorem getLastRow_spec (s : Sheet) (k h : Nat) (hmax : 1 ≤ s.maxRows) :
    getLastRow s k h =
      (if (s.cells s.maxRows k).truthy ∧ nextDataCellUpRow s k s.maxRows ≤ h
       then s.maxRows else nextDataCellUpRow s k s.maxRows) ∧
    ((∀ r, 1 ≤ r → r ≤ s.maxRows → (s.cells r k).truthy = true) → 1 ≤ h →
      getLastRow s k h = s.maxRows) := by
  constructor
  · rfl
  · intro hall hh
    have hpop : ∀ r, 1 ≤ r → r ≤ s.maxRows → s.populatedAt r k = true := by
      intro r h1 h2
      unfold Sheet.populatedAt
      exact decide_eq_true (Value.truthy_ne_empty (hall r h1 h2))
    have hbt : (s.cells s.maxRows k).truthy = true := hall s.maxRows hmax le_rfl
    have hscan : nextDataCellUpRow s k s.maxRows = 1 := by
      by_cases h2 : 2 ≤ s.maxRows
      · unfold nextDataCellUpRow
        rw [if_pos ⟨hpop s.maxRows hmax le_rfl, hpop (s.maxRows - 1) (by omega) (by omega), h2⟩]
        exact runTop_eq_one s k s.maxRows hpop
      · have h1 : s.maxRows = 1 := by omega
        unfold nextDataCellUpRow
        rw [h1]
        rw [if_neg]
        · rfl
        · intro hcon
          exact absurd hcon.2.2 (by omega)
    unfold getLastRow
    rw [hscan, if_pos ⟨hbt, hh⟩]

/-- C2 witness for `getLastRow_spec`: a concrete 3-row sheet whose key
column is truthy throughout reports the physical last row 3. -/
theorem getLastRow_spec_witness :
    getLastRow (sheetOfGrid 3 1 [[Value.vStr "x"], [Value.vStr "y"], [Value.vStr "z"]]) 1 1 = 3 := by
  have h := (getLastRow_spec
      (sheetOfGrid 3 1 [[Value.vStr "x"], [Value.vStr "y"], [Value.vStr "z"]]) 1 1
      (by decide)).2
  have hall : ∀ r, 1 ≤ r →
      r ≤ (sheetOfGrid 3 1 [[Value.vStr "x"], [Value.vStr "y"], [Value.vStr "z"]]).maxRows →
      ((sheetOfGrid 3 1 [[Value.vStr "x"], [Value.vStr "y"], [Value.vStr "z"]]).cells r 1).truthy = true := by
    intro r h1 h2
    have h3 : r ≤ 3 := h2
    interval_cases r <;> decide
  exact h hall (by decide)

@[simp] theorem reflashLastRow_book (st : SheetController) :
    (reflashLastRow st).book = st.book := rfl

@[simp] theorem reflashLastRow_sheetName (st : SheetController) :
    (reflashLastRow st).sheetName = st.sheetName := rfl

@[simp] theorem reflashLastRow_sheet (st : SheetController) :
    (reflashLastRow st).sheet = st.sheet := rfl

@[simp] theorem reflashLastRow_headerRow (st : SheetController) :
    (reflashLastRow st).headerRow = st.headerRow := rfl

@[simp] theorem reflashLastRow_dataStartRow (st : SheetController) :
    (reflashLastRow st).dataStartRow = st.dataStartRow := rfl

@[simp] theorem reflashLastRow_startColumn (st : SheetController) :
    (reflashLastRow st).startColumn = st.startColumn := rfl

@[simp] theorem reflashLastRow_keyColumn (st : SheetController) :
    (reflashLastRow st).keyColumn = st.keyColumn := rfl

@[simp] theorem reflashLastRow_lastColumn (st : SheetController) :
    (reflashLastRow st).lastColumn = st.lastColumn := rfl

@[simp] theorem reflashLastRow_columnNum (st : SheetController) :
    (reflashLastRow st).columnNum = st.columnNum := rfl

@[simp] theorem reflashLastRow_header (st : SheetController) :
    (reflashLastRow st).header = st.header := rfl

theorem reflashLastRow_lastRow (st : SheetController) :
    (reflashLastRow st).lastRow = getLastRow st.sheet st.keyColumn st.headerRow := rfl

theorem reflashLastRow_rowNum (st : SheetController) :
    (reflashLastRow st).rowNum =
      (getLastRow st.sheet st.keyColumn st.headerRow : Int) - (st.dataStartRow : Int) + 1 := rfl

@[simp] theorem reflashLastColumn_book (st : SheetController) :
    (reflashLastColumn st).book = st.book := rfl

@[simp] theorem reflashLastColumn_sheetName (st : SheetController) :
    (reflashLastColumn st).sheetName = st.sheetName := rfl

@[simp] theorem reflashLastColumn_sheet (st : SheetController) :
    (reflashLastColumn st).sheet = st.sheet := rfl

@[simp] theorem reflashLastColumn_headerRow (st : SheetController) :
    (reflashLastColumn st).headerRow = st.headerRow := rfl

@[simp] theorem reflashLastColumn_dataStartRow (st : SheetController) :
    (reflashLastColumn st).dataStartRow = st.dataStartRow := rfl

@[simp] theorem reflashLastColumn_startColumn (st : SheetController) :
    (reflashLastColumn st).startColumn = st.startColumn := rfl

@[simp] theorem reflashLastColumn_keyColumn (st : SheetController) :
    (reflashLastColumn st).keyColumn = st.keyColumn := rfl

@[simp] theorem reflashLastColumn_lastRow (st : SheetController) :
    (reflashLastColumn st).lastRow = st.lastRow := rfl

@[simp] theorem reflashLastColumn_rowNum (st : SheetController) :
    (reflashLastColumn st).rowNum = st.rowNum := rfl

theorem reflashLastColumn_lastColumn (st : SheetController) :
    (reflashLastColumn st).lastColumn = getLastColumn st.sheet st.headerRow st.startColumn := rfl

theorem reflashLastColumn_columnNum (st : SheetController) :
    (reflashLastColumn st).columnNum =
      (getLastColumn st.sheet st.headerRow st.startColumn : Int) - (st.startColumn : Int) + 1 := rfl

/-- The refreshed header cache is exactly the flattened values of the
header range of the refreshed state. -/
theorem reflashLastColumn_header (st : SheetController) :
    (reflashLastColumn st).header =
      (rangeValues st.sheet (getHeaderRange (reflashLastColumn st))).flatten := rfl

/-- Inverting a successful `setSheetControllerParam` call: the book
resolution succeeded, and the result either went through the double
refresh (some dirty flag set) or kept the merged state untouched (no
dirty flag). -/
theorem setParam_inv {env : Env} {prev : Option SheetController}
    {param : SheetControllerParam} {st : SheetController} {log : List ScanEvent}
    (h : setSheetControllerParam env prev param = some (st, log)) :
    ∃ bc : Book × Bool, resolveBook env prev param.bookId = some bc ∧
      (((setParamRest prev param bc.1 bc.2).2.anySet = true ∧
        st = reflashLastColumn (reflashLastRow (setParamRest prev param bc.1 bc.2).1) ∧
        log = [ScanEvent.rowScan, ScanEvent.colScan]) ∨
       ((setParamRest prev param bc.1 bc.2).2.anySet = false ∧
        st = (setParamRest prev param bc.1 bc.2).1 ∧ log = [])) := by
  unfold setSheetControllerParam setParamStage at h
  cases hb : resolveBook env prev param.bookId with
  | none =>
    rw [hb] at h
    exact absurd h (by simp)
  | some bc =>
    rw [hb] at h
    simp only [Option.map_some', Option.map_map, Option.some.injEq] at h
    refine ⟨bc, rfl, ?_⟩
    unfold applyReflash at h
    by_cases ha : (setParamRest prev param bc.1 bc.2).2.anySet
    · left
      rw [if_pos ha] at h
      exact ⟨ha, congrArg Prod.fst h.symm, congrArg Prod.snd h.symm⟩
    · right
      rw [if_neg ha] at h
      exact ⟨Bool.eq_false_iff.mpr ha, congrArg Prod.fst h.symm, congrArg Prod.snd h.symm⟩

theorem setParamRest_startColumn (prev : Option SheetController)
    (param : SheetControllerParam) (b : Book) (cb : Bool) :
    (setParamRest prev param b cb).1.startColumn =
      (mergeNatField ((prev.map (fun c => c.startColumn)).getD 0) param.startColumn).1 := rfl

theorem setParamRest_headerRow (prev : Option SheetController)
    (param : SheetControllerParam) (b : Book) (cb : Bool) :
    (setParamRest prev param b cb).1.headerRow =
      (mergeNatField ((prev.map (fun c => c.headerRow)).getD 0) param.headerRow).1 := rfl

theorem setParamRest_keyColumn (prev : Option SheetController)
    (param : SheetControllerParam) (b : Book) (cb : Bool) :
    (setParamRest prev param b cb).1.keyColumn =
      mergeKeyColumn ((prev.map (fun c => c.keyColumn)).getD 0) param.keyColumn
        (mergeNatField ((prev.map (fun c => c.startColumn)).getD 0) param.startColumn).2
        (mergeNatField ((prev.map (fun c => c.startColumn)).getD 0) param.startColumn).1 := rfl

theorem setParamRest_flags (prev : Option SheetController)
    (param : SheetControllerParam) (b : Book) (cb : Bool) :
    (setParamRest prev param b cb).2 =
      { changeBookId := cb,
        changeSheetName := (resolveSheet prev param.sheetName b cb).changed,
        changeHeaderRow :=
          (mergeNatField ((prev.map (fun c => c.headerRow)).getD 0) param.headerRow).2,
        changeStartColumn :=
          (mergeNatField ((prev.map (fun c => c.startColumn)).getD 0) param.startColumn).2 } := rfl

theorem setParamRest_cache (prev : Option SheetController)
    (param : SheetControllerParam) (b : Book) (cb : Bool) :
    (setParamRest prev param b cb).1.lastRow = (prev.map (fun c => c.lastRow)).getD 0 ∧
    (setParamRest prev param b cb).1.rowNum = (prev.map (fun c => c.rowNum)).getD 0 ∧
    (setParamRest prev param b cb).1.lastColumn = (prev.map (fun c => c.lastColumn)).getD 0 ∧
    (setParamRest prev param b cb).1.columnNum = (prev.map (fun c => c.columnNum)).getD 0 ∧
    (setParamRest prev param b cb).1.header = (prev.map (fun c => c.header)).getD [] :=
  ⟨rfl, rfl, rfl, rfl, rfl⟩

/-- A field whose parameter is JS-falsy and whose previous value is set is
kept, with the dirty flag clear. -/
theorem mergeNatField_keep {prevVal : Nat} {p : Option Nat}
    (hp : jsTruthyNat p = none) (h0 : prevVal ≠ 0) :
    mergeNatField prevVal p = (prevVal, false) := by
  unfold mergeNatField
  rw [hp, if_neg h0]

/-- A field whose parameter is JS-truthy takes the supplied value, with
the dirty flag set. -/
theorem mergeNatField_supplied {prevVal v : Nat} {p : Option Nat}
    (hp : jsTruthyNat p = some v) :
    mergeNatField prevVal p = (v, true) := by
  unfold mergeNatField
  rw [hp]

/-- C3 counterexample: after `initialize({sheetName:"S", headerRow:2,
startColumn:3})` (every probe inside the 6 × 8 grid of `demoSheet`), the
update `{bookId:"B2"}` (whose probes stay inside the 3 × 3 grid of
`demoBook2`) changes the bound resource while omitting `startColumn` and
`headerRow`; the claim says both are reset to their defaults (1), but the
code keeps 3 and 2. -/
theorem update_bookId_default_counterexample :
    ((setSheetControllerParam demoEnv none
        { sheetName := some "S", headerRow := some 2, startColumn := some 3 }).bind
      (fun p => setSheetControllerParam demoEnv (some p.1) { bookId := some "B2" })).map
      (fun p => (p.1.startColumn, p.1.headerRow)) = some (3, 2) := by decide

/-- C3 (amended): an update never resets omitted fields, even when it
changes the bound resource or the sheet name: on any initialized
controller (`headerRow` and `startColumn` set), an update omitting
`startColumn` keeps the previous `startColumn`, and an update omitting
`headerRow` keeps the previous `headerRow`; the default 1 is only filled
in on the first initialization. -/
theorem update_retains_omitted_fields (env : Env) (c : SheetController)
    (param : SheetControllerParam) (st : SheetController) (log : List ScanEvent)
    (hhr : c.headerRow ≠ 0) (hsc : c.startColumn ≠ 0)
    (h : setSheetControllerParam env (some c) param = some (st, log)) :
    (jsTruthyNat param.startColumn = none → st.startColumn = c.startColumn) ∧
    (jsTruthyNat param.headerRow = none → st.headerRow = c.headerRow) := by
  obtain ⟨bc, hb, hcase⟩ := setParam_inv h
  have hs : st.startColumn = (setParamRest (some c) param bc.1 bc.2).1.startColumn := by
    rcases hcase with ⟨_, hst, _⟩ | ⟨_, hst, _⟩ <;> (rw [hst]; try simp)
  have hh2 : st.headerRow = (setParamRest (some c) param bc.1 bc.2).1.headerRow := by
    rcases hcase with ⟨_, hst, _⟩ | ⟨_, hst, _⟩ <;> (rw [hst]; try simp)
  constructor
  · intro hp
    rw [hs, setParamRest_startColumn]
    simp only [Option.map_some', Option.getD_some]
    rw [mergeNatField_keep hp hsc]
  · intro hp
    rw [hh2, setParamRest_headerRow]
    simp only [Option.map_some', Option.getD_some]
    rw [mergeNatField_keep hp hhr]

/-- A concrete initialized controller state used by witnesses (cache
fields consistent with invariant I1). -/
def cDemo : SheetController :=
  { book := demoBook, sheetName := "S", sheet := demoSheet,
    headerRow := 2, dataStartRow := 3, startColumn := 3, keyColumn := 3,
    lastRow := 2, rowNum := 0, lastColumn := 4, columnNum := 2, header := [] }

/-- C3 witness for `update_retains_omitted_fields`: the concrete
resource-changing update keeps `startColumn = 3` and `headerRow = 2`. -/
theorem update_retains_omitted_fields_witness :
    (setSheetControllerParam demoEnv (some cDemo) { bookId := some "B2" }).map
      (fun p => (p.1.startColumn, p.1.headerRow)) = some (3, 2) := by
  have h0 : (setSheetControllerParam demoEnv (some cDemo) { bookId := some "B2" }).isSome = true := by
    decide
  obtain ⟨p, hp⟩ := Option.isSome_iff_exists.mp h0
  have hm := update_retains_omitted_fields demoEnv cDemo { bookId := some "B2" } p.1 p.2
    (by decide) (by decide) (by rw [hp])
  rw [hp, Option.map_some']
  rw [hm.1 rfl, hm.2 rfl]
  rfl

/-- A supplied start column, or one still unset, sets the dirty flag. -/
theorem mergeNatField_flag_true {prevVal : Nat} {p : Option Nat}
    (hcond : (jsTruthyNat p).isSome = true ∨ prevVal = 0) :
    (mergeNatField prevVal p).2 = true := by
  cases hp : jsTruthyNat p with
  | some v => simp [mergeNatField, hp]
  | none =>
    rcases hcond with hs | h0
    · rw [hp] at hs
      exact absurd hs (by simp)
    · simp [mergeNatField, hp, h0]

/-- With the previous value set, the dirty flag is exactly "the parameter
was supplied (and truthy)". -/
theorem mergeNatField_flag_of_set {prevVal : Nat} (p : Option Nat) (h0 : prevVal ≠ 0) :
    (mergeNatField prevVal p).2 = (jsTruthyNat p).isSome := by
  cases hp : jsTruthyNat p with
  | some v => simp [mergeNatField, hp]
  | none => simp [mergeNatField, hp, h0]

/-- A clear dirty flag means the previous value was kept. -/
theorem mergeNatField_flag_false {prevVal : Nat} {p : Option Nat}
    (h : (mergeNatField prevVal p).2 = false) :
    (mergeNatField prevVal p).1 = prevVal := by
  cases hp : jsTruthyNat p with
  | some v => simp [mergeNatField, hp] at h
  | none =>
    by_cases h0 : prevVal = 0
    · simp [mergeNatField, hp, h0] at h
    · simp [mergeNatField, hp, h0]

/-- C4: key-column tracking on every initialize or update: an explicitly
supplied `keyColumn` wins; an omitted `keyColumn` tracks the new
`startColumn` exactly when this call supplied `startColumn` or defaulted
it (first initialization); otherwise it is left unchanged. -/
theorem keyColumn_tracking (env : Env) (prev : Option SheetController)
    (param : SheetControllerParam) (st : SheetController) (log : List ScanEvent)
    (h : setSheetControllerParam env prev param = some (st, log)) :
    (∀ k, jsTruthyNat param.keyColumn = some k → st.keyColumn = k) ∧
    (jsTruthyNat param.keyColumn = none →
      ((jsTruthyNat param.startColumn).isSome = true ∨
        (prev.map (fun c => c.startColumn)).getD 0 = 0) →
      st.keyColumn = st.startColumn) ∧
    (jsTruthyNat param.keyColumn = none → jsTruthyNat param.startColumn = none →
      ∀ c, prev = some c → c.startColumn ≠ 0 → st.keyColumn = c.keyColumn) := by
  obtain ⟨bc, hb, hcase⟩ := setParam_inv h
  have hk : st.keyColumn = (setParamRest prev param bc.1 bc.2).1.keyColumn := by
    rcases hcase with ⟨_, hst, _⟩ | ⟨_, hst, _⟩ <;> (rw [hst]; try simp)
  have hscol : st.startColumn = (setParamRest prev param bc.1 bc.2).1.startColumn := by
    rcases hcase with ⟨_, hst, _⟩ | ⟨_, hst, _⟩ <;> (rw [hst]; try simp)
  refine ⟨?_, ?_, ?_⟩
  · intro k hkp
    rw [hk, setParamRest_keyColumn]
    unfold mergeKeyColumn
    rw [hkp]
  · intro hkn hcond
    rw [hk, setParamRest_keyColumn, hscol, setParamRest_startColumn]
    unfold mergeKeyColumn
    rw [hkn]
    rw [if_pos (mergeNatField_flag_true hcond)]
  · intro hkn hsn c hc hc0
    subst hc
    rw [hk, setParamRest_keyColumn]
    unfold mergeKeyColumn
    rw [hkn]
    simp only [Option.map_some', Option.getD_some]
    rw [mergeNatField_keep hsn hc0]
    simp

/-- C4 witness for `keyColumn_tracking`: `initialize({sheetName:"S",
startColumn:3})` with no `keyColumn` makes `keyColumn` track the new
`startColumn`. -/
theorem keyColumn_tracking_witness :
    (setSheetControllerParam demoEnv none { sheetName := some "S", startColumn := some 3 }).map
      (fun p => p.1.keyColumn) =
    (setSheetControllerParam demoEnv none { sheetName := some "S", startColumn := some 3 }).map
      (fun p => p.1.startColumn) := by
  have h0 : (setSheetControllerParam demoEnv none
      { sheetName := some "S", startColumn := some 3 }).isSome = true := by decide
  obtain ⟨p, hp⟩ := Option.isSome_iff_exists.mp h0
  have hm := (keyColumn_tracking demoEnv none { sheetName := some "S", startColumn := some 3 }
      p.1 p.2 (by rw [hp])).2.1 rfl (Or.inl rfl)
  rw [hp, Option.map_some', Option.map_some', hm]

/-- On a first initialization the book flag is always set. -/
theorem resolveBook_none_flag {env : Env} {bid : Option String} {bc : Book × Bool}
    (hb : resolveBook env none bid = some bc) : bc.2 = true := by
  cases hp : jsTruthyStr bid with
  | some id =>
    simp only [resolveBook, hp] at hb
    cases ho : env.openById id with
    | none => rw [ho] at hb; exact absurd hb (by simp)
    | some b =>
      rw [ho] at hb
      simp only [Option.map_some', Option.some.injEq] at hb
      rw [← hb]
  | none =>
    simp only [resolveBook, hp, Option.some.injEq] at hb
    rw [← hb]

/-- On an update the book flag is exactly "a truthy `bookId` was
supplied". -/
theorem resolveBook_update_flag {env : Env} {c : SheetController} {bid : Option String}
    {bc : Book × Bool} (hb : resolveBook env (some c) bid = some bc) :
    bc.2 = (jsTruthyStr bid).isSome := by
  cases hp : jsTruthyStr bid with
  | some id =>
    simp only [resolveBook, hp] at hb
    cases ho : env.openById id with
    | none => rw [ho] at hb; exact absurd hb (by simp)
    | some b =>
      rw [ho] at hb
      simp only [Option.map_some', Option.some.injEq] at hb
      rw [← hb]
      rfl
  | none =>
    simp only [resolveBook, hp, Option.some.injEq] at hb
    rw [← hb]
    rfl

/-- With no truthy `bookId` supplied, an update keeps the current book and
clears the flag. -/
theorem resolveBook_keep {env : Env} {c : SheetController} {bid : Option String}
    (hb : jsTruthyStr bid = none) :
    resolveBook env (some c) bid = some (c.book, false) := by
  unfold resolveBook
  rw [hb]

/-- The sheet flag is exactly "a truthy `sheetName` was supplied or the
book changed". -/
theorem resolveSheet_changed (prev : Option SheetController) (p : Option String)
    (book0 : Book) (cb : Bool) :
    (resolveSheet prev p book0 cb).changed = ((jsTruthyStr p).isSome || cb) := by
  unfold resolveSheet
  by_cases hc : ((jsTruthyStr p).isSome || cb) = true
  · rw [if_pos hc, hc]
    dsimp only
    split <;> rfl
  · rw [if_neg hc]
    exact (Bool.eq_false_iff.mpr hc).symm

/-- With no truthy `sheetName` and an unchanged book, the sheet binding is
kept as is. -/
theorem resolveSheet_keep (prev : Option SheetController) {p : Option String}
    (book0 : Book) (hs : jsTruthyStr p = none) :
    resolveSheet prev p book0 false =
      { book := book0, sheetName := (prev.map (fun c => c.sheetName)).getD "",
        sheet := (prev.map (fun c => c.sheet)).getD Sheet.blank, changed := false } := by
  unfold resolveSheet
  rw [if_neg]
  rw [hs]
  simp

theorem setParamRest_book (prev : Option SheetController) (param : SheetControllerParam)
    (b : Book) (cb : Bool) :
    (setParamRest prev param b cb).1.book = (resolveSheet prev param.sheetName b cb).book := rfl

theorem setParamRest_sheetName (prev : Option SheetController) (param : SheetControllerParam)
    (b : Book) (cb : Bool) :
    (setParamRest prev param b cb).1.sheetName =
      (resolveSheet prev param.sheetName b cb).sheetName := rfl

theorem setParamRest_sheet (prev : Option SheetController) (param : SheetControllerParam)
    (b : Book) (cb : Bool) :
    (setParamRest prev param b cb).1.sheet = (resolveSheet prev param.sheetName b cb).sheet := rfl

theorem setParamRest_dataStartRow (prev : Option SheetController)
    (param : SheetControllerParam) (b : Book) (cb : Bool) :
    (setParamRest prev param b cb).1.dataStartRow =
      (if (mergeNatField ((prev.map (fun c => c.headerRow)).getD 0) param.headerRow).2 then
        (mergeNatField ((prev.map (fun c => c.headerRow)).getD 0) param.headerRow).1 + 1
       else (prev.map (fun c => c.dataStartRow)).getD 0) := rfl

/-- C1: an update on an initialized controller recomputes both cached
pairs, each through its boundary scan, exactly when one of the four dirty
flags is set (equivalently, when the call supplies a truthy `bookId`,
`sheetName`, `headerRow` or `startColumn`); with no flag set, both pairs
are kept untouched and no boundary scan is issued. -/
theorem setParam_invalidation (env : Env) (prev : Option SheetController)
    (param : SheetControllerParam) (st : SheetController) (log : List ScanEvent)
    (bc : Book × Bool) (hb : resolveBook env prev param.bookId = some bc)
    (h : setSheetControllerParam env prev param = some (st, log)) :
    ((setParamRest prev param bc.1 bc.2).2.anySet = true →
      log = [ScanEvent.rowScan, ScanEvent.colScan] ∧
      st.lastRow = getLastRow st.sheet st.keyColumn st.headerRow ∧
      st.rowNum = (st.lastRow : Int) - (st.dataStartRow : Int) + 1 ∧
      st.lastColumn = getLastColumn st.sheet st.headerRow st.startColumn ∧
      st.columnNum = (st.lastColumn : Int) - (st.startColumn : Int) + 1 ∧
      st.header = (rangeValues st.sheet (getHeaderRange st)).flatten) ∧
    ((setParamRest prev param bc.1 bc.2).2.anySet = false →
      log = [] ∧ ∀ c, prev = some c →
        st.lastRow = c.lastRow ∧ st.rowNum = c.rowNum ∧ st.lastColumn = c.lastColumn ∧
        st.columnNum = c.columnNum ∧ st.header = c.header) ∧
    (∀ c, prev = some c → c.headerRow ≠ 0 → c.startColumn ≠ 0 →
      (setParamRest prev param bc.1 bc.2).2.anySet =
        ((jsTruthyStr param.bookId).isSome || (jsTruthyStr param.sheetName).isSome ||
         (jsTruthyNat param.headerRow).isSome || (jsTruthyNat param.startColumn).isSome)) := by
  obtain ⟨bc', hb', hcase⟩ := setParam_inv h
  have hbc : bc' = bc := Option.some.inj (hb'.symm.trans hb)
  rw [hbc] at hcase
  refine ⟨?_, ?_, ?_⟩
  · intro ha
    rcases hcase with ⟨_, hst, hlog⟩ | ⟨ha', _, _⟩
    · subst hst
      refine ⟨hlog, ?_, ?_, ?_, ?_, ?_⟩
      · simp [reflashLastRow_lastRow]
      · simp [reflashLastRow_rowNum, reflashLastRow_lastRow]
      · simp [reflashLastColumn_lastColumn]
      · simp [reflashLastColumn_columnNum, reflashLastColumn_lastColumn]
      · rw [reflashLastColumn_header]
        simp
    · rw [ha'] at ha
      exact absurd ha (by simp)
  · intro ha
    rcases hcase with ⟨ha', _, _⟩ | ⟨_, hst, hlog⟩
    · rw [ha'] at ha
      exact absurd ha (by simp)
    · subst hst
      refine ⟨hlog, ?_⟩
      intro c hc
      subst hc
      have hcache := setParamRest_cache (some c) param bc.1 bc.2
      simpa using hcache
  · intro c hc hhr hsc
    subst hc
    have hcb : bc.2 = (jsTruthyStr param.bookId).isSome := resolveBook_update_flag hb
    show (Flags.anySet _) = _
    rw [setParamRest_flags]
    unfold Flags.anySet
    simp only []
    rw [resolveSheet_changed]
    simp only [Option.map_some', Option.getD_some]
    rw [mergeNatField_flag_of_set param.headerRow hhr,
        mergeNatField_flag_of_set param.startColumn hsc, hcb]
    cases (jsTruthyStr param.bookId).isSome <;>
      cases (jsTruthyStr param.sheetName).isSome <;>
      cases (jsTruthyNat param.headerRow).isSome <;>
      cases (jsTruthyNat param.startColumn).isSome <;> rfl

/-- C1 witness for `setParam_invalidation`: an update supplying none of
the four fields (only `keyColumn`) issues no boundary scan. -/
theorem setParam_invalidation_witness :
    (setSheetControllerParam demoEnv (some cDemo) { keyColumn := some 9 }).map
      (fun p => p.2) = some [] := by
  have h0 : (setSheetControllerParam demoEnv (some cDemo)
      { keyColumn := some 9 }).isSome = true := by decide
  obtain ⟨p, hp⟩ := Option.isSome_iff_exists.mp h0
  have hbk : resolveBook demoEnv (some cDemo)
      ({ keyColumn := some 9 : SheetControllerParam }).bookId = some (cDemo.book, false) := rfl
  have hm := setParam_invalidation demoEnv (some cDemo) { keyColumn := some 9 }
      p.1 p.2 (cDemo.book, false) hbk (by rw [hp])
  have hflag : (setParamRest (some cDemo) { keyColumn := some 9 }
      (cDemo.book) false).2.anySet = false := by decide
  rw [hp, Option.map_some', (hm.2.1 hflag).1]

/-- Invariant I1: the cached counts agree with the cached boundaries. -/
def I1 (st : SheetController) : Prop :=
  st.rowNum = (st.lastRow : Int) - (st.dataStartRow : Int) + 1 ∧
  st.columnNum = (st.lastColumn : Int) - (st.startColumn : Int) + 1

/-- A clear `anySet` means all four dirty flags are clear. -/
theorem Flags.anySet_false {f : Flags} (h : f.anySet = false) :
    f.changeBookId = false ∧ f.changeSheetName = false ∧
    f.changeHeaderRow = false ∧ f.changeStartColumn = false := by
  unfold Flags.anySet at h
  simp only [Bool.or_eq_false_iff] at h
  exact ⟨h.1.1.1, h.1.1.2, h.1.2, h.2⟩

theorem outputHeader_fst (st : SheetController) (values : List Value) :
    (outputHeader st values).1 =
      reflashLastColumn
        { st with sheet := st.sheet.writeValues st.headerRow st.startColumn [values],
                  book := st.book.withSheet st.sheetName
                    (st.sheet.writeValues st.headerRow st.startColumn [values]) } := rfl

theorem outputDataArea_fst (st : SheetController) (rows : List (List Value)) :
    (outputDataArea st rows).1 =
      reflashLastRow
        { st with sheet := st.sheet.writeValues st.dataStartRow st.startColumn rows,
                  book := st.book.withSheet st.sheetName
                    (st.sheet.writeValues st.dataStartRow st.startColumn rows) } := rfl

/-- C5: invariant I1 holds after initialization, is established or
preserved by every update (cache-invalidating or not), and is preserved
by `outputHeader` (writeHeader) and `outputDataArea` (writeDataArea);
these are the only operations that touch the cached fields, so the two
equations remain true between mutations. -/
theorem boundary_invariant :
    (∀ env prev param st log, setSheetControllerParam env prev param = some (st, log) →
      (∀ c, prev = some c → I1 c) → I1 st) ∧
    (∀ st values, I1 st → I1 (outputHeader st values).1) ∧
    (∀ st rows, I1 st → I1 (outputDataArea st rows).1) := by
  refine ⟨?_, ?_, ?_⟩
  · intro env prev param st log h hprev
    obtain ⟨bc, hb, hcase⟩ := setParam_inv h
    rcases hcase with ⟨_, hst, _⟩ | ⟨hflag, hst, _⟩
    · subst hst
      constructor
      · simp [reflashLastRow_rowNum, reflashLastRow_lastRow]
      · simp [reflashLastColumn_columnNum, reflashLastColumn_lastColumn]
    · subst hst
      obtain ⟨hcb, hcs, hchr, hcsc⟩ := Flags.anySet_false hflag
      cases hpv : prev with
      | none =>
        subst hpv
        have hcb2 : bc.2 = false := hcb
        exact absurd ((resolveBook_none_flag hb).symm.trans hcb2) (by simp)
      | some c =>
        subst hpv
        have hI := hprev c rfl
        have hchr2 : (mergeNatField c.headerRow param.headerRow).2 = false := hchr
        have hcsc2 : (mergeNatField c.startColumn param.startColumn).2 = false := hcsc
        have hcache := setParamRest_cache (some c) param bc.1 bc.2
        simp only [Option.map_some', Option.getD_some] at hcache
        constructor
        · rw [hcache.1, hcache.2.1, setParamRest_dataStartRow]
          simp only [Option.map_some', Option.getD_some]
          rw [if_neg (fun hcon => Bool.noConfusion (hchr2.symm.trans hcon))]
          exact hI.1
        · rw [hcache.2.2.1, hcache.2.2.2.1, setParamRest_startColumn]
          simp only [Option.map_some', Option.getD_some]
          rw [mergeNatField_flag_false hcsc2]
          exact hI.2
  · intro st values hI
    unfold I1 at hI ⊢
    rw [outputHeader_fst]
    constructor
    · simp only [reflashLastColumn_rowNum, reflashLastColumn_lastRow,
        reflashLastColumn_dataStartRow]
      exact hI.1
    · rw [reflashLastColumn_columnNum, reflashLastColumn_lastColumn,
        reflashLastColumn_startColumn]
  · intro st rows hI
    unfold I1 at hI ⊢
    rw [outputDataArea_fst]
    constructor
    · rw [reflashLastRow_rowNum, reflashLastRow_lastRow, reflashLastRow_dataStartRow]
    · simp only [reflashLastRow_columnNum, reflashLastRow_lastColumn,
        reflashLastRow_startColumn]
      exact hI.2

/-- C5 witness for `boundary_invariant`: a concrete data-area write on a
concrete I1-consistent state keeps I1. -/
theorem boundary_invariant_witness :
    I1 (outputDataArea cDemo [[Value.vStr "v"]]).1 :=
  boundary_invariant.2.2 cDemo [[Value.vStr "v"]] (by constructor <;> decide)

/-- A kept (truthy, hence nonzero) count passes `|| 1` unchanged. -/
theorem jsOrInt_of_ne_zero {v : Int} (d : Int) (hv : v ≠ 0) :
    jsOrInt (some v) d = v := by
  show (if v = 0 then d else v) = v
  rw [if_neg hv]

/-- The flattened values of a one-row range have one entry per column. -/
theorem rangeValues_flatten_length (s : Sheet) (r : RangeH) (h1 : r.rowNum = 1) :
    ((rangeValues s r).flatten).length = r.columnNum.toNat := by
  unfold rangeValues
  rw [h1]
  have hr1 : List.range (Int.toNat 1) = [0] := rfl
  rw [hr1]
  simp

/-- A successful rightward probe never lands left of where the search
started. -/
theorem firstPopRightFrom_ge (s : Sheet) (r : Nat) :
    ∀ fuel c0 cc, firstPopRightFrom s r c0 fuel = some cc → c0 ≤ cc := by
  intro fuel
  induction fuel with
  | zero => intro c0 cc h; exact absurd h (by simp [firstPopRightFrom])
  | succ f ih =>
    intro c0 cc h
    rw [firstPopRightFrom] at h
    by_cases hb : s.maxColumns < c0
    · rw [if_pos hb] at h
      exact absurd h (by simp)
    · rw [if_neg hb] at h
      by_cases hp : s.populatedAt r c0
      · rw [if_pos hp] at h
        exact Nat.le_of_eq (Option.some.inj h)
      · rw [if_neg hp] at h
        exact Nat.le_of_succ_le (ih (c0 + 1) cc h)

/-- The right edge of a populated run is at or after its start. -/
theorem runRight_ge (s : Sheet) (r : Nat) :
    ∀ fuel c, c ≤ runRight s r c fuel := by
  intro fuel
  induction fuel with
  | zero => intro c; exact le_rfl
  | succ f ih =>
    intro c
    rw [runRight]
    by_cases hb : c + 1 ≤ s.maxColumns ∧ s.populatedAt r (c + 1)
    · rw [if_pos hb]
      exact Nat.le_of_succ_le (ih (c + 1))
    · rw [if_neg hb]

/-- The NEXT (rightward) scan started inside the grid never lands left of
its start cell: it finds a populated cell to the right or stops at the
sheet's last physical column. -/
theorem nextDataCellRightCol_ge (s : Sheet) (r c : Nat) (hc : c ≤ s.maxColumns) :
    c ≤ nextDataCellRightCol s r c := by
  unfold nextDataCellRightCol
  by_cases hb : s.populatedAt r c ∧ s.populatedAt r (c + 1) ∧ c + 1 ≤ s.maxColumns
  · rw [if_pos hb]
    exact runRight_ge s r s.maxColumns c
  · rw [if_neg hb]
    cases hf : firstPopRightFrom s r (c + 1) (s.maxColumns + 1) with
    | some cc => exact Nat.le_of_succ_le (firstPopRightFrom_ge s r (s.maxColumns + 1) (c + 1) cc hf)
    | none => exact hc

/-- C6: invariant I2 — after every refresh of pair B whose boundary probe
is inside the grid (`startColumn ≤ maxColumns`; otherwise the resource
raises its bounds error at the probing `getRange` and no refreshed state
is produced), the refreshed `columnNum` is at least 1 — so no reachable
refresh yields a `columnNum` of 0 or negative — and the header cache
length equals `columnNum`. -/
theorem header_length_columnCount (st : SheetController)
    (hin : st.startColumn ≤ st.sheet.maxColumns) :
    1 ≤ (reflashLastColumn st).columnNum ∧
    ((reflashLastColumn st).header.length : Int) = (reflashLastColumn st).columnNum := by
  have hge : st.startColumn ≤ getLastColumn st.sheet st.headerRow st.startColumn :=
    nextDataCellRightCol_ge st.sheet st.headerRow st.startColumn hin
  have hcn := reflashLastColumn_columnNum st
  have h1 : 1 ≤ (reflashLastColumn st).columnNum := by
    rw [hcn]
    omega
  refine ⟨h1, ?_⟩
  rw [reflashLastColumn_header, rangeValues_flatten_length]
  · show ((getHeaderRange (reflashLastColumn st)).columnNum.toNat : Int) = _
    have hhr : (getHeaderRange (reflashLastColumn st)).columnNum =
        jsOrInt (some (reflashLastColumn st).columnNum) 1 := rfl
    rw [hhr, jsOrInt_of_ne_zero 1 (by omega)]
    exact Int.toNat_of_nonneg (by omega)
  · rfl

/-- A concrete controller state holding the spec's P6 header example. -/
def cP6 : SheetController :=
  { book := demoBook, sheetName := "S", sheet := demoSheet,
    headerRow := 1, dataStartRow := 2, startColumn := 2, keyColumn := 2,
    lastRow := 2, rowNum := 1, lastColumn := 4, columnNum := 3,
    header := [Value.vStr "Name", Value.vStr "Age", Value.vStr "City"] }

/-- C6 witness for `header_length_columnCount`: a concrete in-grid
refresh has `columnNum ≥ 1` and a header cache of matching length. -/
theorem header_length_columnCount_witness :
    1 ≤ (reflashLastColumn cP6).columnNum ∧
    ((reflashLastColumn cP6).header.length : Int) = (reflashLastColumn cP6).columnNum :=
  header_length_columnCount cP6 (by decide)

/-- C7: an update that does not change the bound resource or the sheet
name keeps the book, the sheet name and the sheet handle, and every
configuration field omitted from the partial configuration retains its
previous value (`headerRow`, `startColumn`, and `keyColumn` when
`startColumn` is also untouched). -/
theorem update_merge_frame (env : Env) (c : SheetController)
    (param : SheetControllerParam) (st : SheetController) (log : List ScanEvent)
    (hbid : jsTruthyStr param.bookId = none) (hsn : jsTruthyStr param.sheetName = none)
    (hhr : c.headerRow ≠ 0) (hsc : c.startColumn ≠ 0)
    (h : setSheetControllerParam env (some c) param = some (st, log)) :
    st.book = c.book ∧ st.sheetName = c.sheetName ∧ st.sheet = c.sheet ∧
    (jsTruthyNat param.headerRow = none → st.headerRow = c.headerRow) ∧
    (jsTruthyNat param.startColumn = none → st.startColumn = c.startColumn) ∧
    (jsTruthyNat param.keyColumn = none → jsTruthyNat param.startColumn = none →
      st.keyColumn = c.keyColumn) := by
  obtain ⟨bc, hb, hcase⟩ := setParam_inv h
  have hbc : bc = (c.book, false) := Option.some.inj ((resolveBook_keep hbid).symm.trans hb).symm
  subst hbc
  have hres : resolveSheet (some c) param.sheetName c.book false =
      { book := c.book, sheetName := c.sheetName, sheet := c.sheet, changed := false } := by
    rw [resolveSheet_keep (some c) c.book hsn]
    rfl
  have hstb : st.book = (setParamRest (some c) param c.book false).1.book := by
    rcases hcase with ⟨_, hst, _⟩ | ⟨_, hst, _⟩ <;> (rw [hst]; try simp)
  have hstn : st.sheetName = (setParamRest (some c) param c.book false).1.sheetName := by
    rcases hcase with ⟨_, hst, _⟩ | ⟨_, hst, _⟩ <;> (rw [hst]; try simp)
  have hsts : st.sheet = (setParamRest (some c) param c.book false).1.sheet := by
    rcases hcase with ⟨_, hst, _⟩ | ⟨_, hst, _⟩ <;> (rw [hst]; try simp)
  have hsthr : st.headerRow = (setParamRest (some c) param c.book false).1.headerRow := by
    rcases hcase with ⟨_, hst, _⟩ | ⟨_, hst, _⟩ <;> (rw [hst]; try simp)
  have hstsc : st.startColumn = (setParamRest (some c) param c.book false).1.startColumn := by
    rcases hcase with ⟨_, hst, _⟩ | ⟨_, hst, _⟩ <;> (rw [hst]; try simp)
  have hstkc : st.keyColumn = (setParamRest (some c) param c.book false).1.keyColumn := by
    rcases hcase with ⟨_, hst, _⟩ | ⟨_, hst, _⟩ <;> (rw [hst]; try simp)
  refine ⟨?_, ?_, ?_, ?_, ?_, ?_⟩
  · rw [hstb, setParamRest_book, hres]
  · rw [hstn, setParamRest_sheetName, hres]
  · rw [hsts, setParamRest_sheet, hres]
  · intro hp
    rw [hsthr, setParamRest_headerRow]
    simp only [Option.map_some', Option.getD_some]
    rw [mergeNatField_keep hp hhr]
  · intro hp
    rw [hstsc, setParamRest_startColumn]
    simp only [Option.map_some', Option.getD_some]
    rw [mergeNatField_keep hp hsc]
  · intro hkp hp
    rw [hstkc, setParamRest_keyColumn]
    simp only [Option.map_some', Option.getD_some]
    rw [mergeNatField_keep hp hsc]
    unfold mergeKeyColumn
    rw [hkp]
    simp

/-- C7 witness for `update_merge_frame`: the concrete P3 scenario
`update({headerRow:5})` keeps `startColumn = 3`, `keyColumn = 3` and the
sheet name. -/
theorem update_merge_frame_witness :
    (setSheetControllerParam demoEnv (some cDemo) { headerRow := some 5 }).map
      (fun p => (p.1.startColumn, p.1.keyColumn, p.1.sheetName)) = some (3, 3, "S") := by
  have h0 : (setSheetControllerParam demoEnv (some cDemo)
      { headerRow := some 5 }).isSome = true := by decide
  obtain ⟨p, hp⟩ := Option.isSome_iff_exists.mp h0
  have hm := update_merge_frame demoEnv cDemo { headerRow := some 5 } p.1 p.2
    rfl rfl (by decide) (by decide) (by rw [hp])
  rw [hp, Option.map_some', hm.2.2.2.2.1 rfl, hm.2.2.2.2.2 rfl rfl, hm.2.1]
  rfl

/-- Writing a single-row block puts each supplied value at its column. -/
theorem writeValues_single_get (s : Sheet) (row col : Nat) (vals : List Value)
    (j : Nat) (hj : j < vals.length) :
    (s.writeValues row col [vals]).cells row (col + j) = vals.getD j Value.vEmpty := by
  simp only [Sheet.writeValues]
  have hc : row ≤ row ∧ row < row + [vals].length ∧ col ≤ col + j ∧
      col + j < col + ([vals].getD (row - row) []).length := by
    refine ⟨le_rfl, by simp, Nat.le_add_right col j, ?_⟩
    rw [Nat.sub_self]
    simpa using hj
  rw [if_pos hc, Nat.sub_self, Nat.add_sub_cancel_left]
  simp

/-- A write leaves every cell outside the written block unchanged. -/
theorem writeValues_frame (s : Sheet) (row col : Nat) (vals : List (List Value))
    (r c : Nat)
    (h : ¬(row ≤ r ∧ r < row + vals.length ∧ col ≤ c ∧
        c < col + (vals.getD (r - row) []).length)) :
    (s.writeValues row col vals).cells r c = s.cells r c := by
  simp only [Sheet.writeValues]
  rw [if_neg h]

/-- C8: `outputHeader(values)` writes the one-row block `[values]` at
`(headerRow, startColumn)` spanning `values.length` columns, leaves every
other cell of the sheet unchanged, then recomputes only pair B
(`lastColumn`, `columnNum`, `header` via the column boundary scan) while
the cached `lastRow` and `rowNum` keep their previous values. -/
theorem outputHeader_spec (st : SheetController) (values : List Value)
    (j : Nat) (hj : j < values.length) (r c : Nat)
    (hout : ¬(r = st.headerRow ∧ st.startColumn ≤ c ∧
        c < st.startColumn + values.length)) :
    (outputHeader st values).2.startRow = st.headerRow ∧
    (outputHeader st values).2.startColumn = st.startColumn ∧
    (outputHeader st values).2.rowNum = 1 ∧
    (values.length ≠ 0 → (outputHeader st values).2.columnNum = (values.length : Int)) ∧
    (outputHeader st values).1.sheet.cells st.headerRow (st.startColumn + j) =
      values.getD j Value.vEmpty ∧
    (outputHeader st values).1.sheet.cells r c = st.sheet.cells r c ∧
    (outputHeader st values).1.lastRow = st.lastRow ∧
    (outputHeader st values).1.rowNum = st.rowNum ∧
    (outputHeader st values).1.headerRow = st.headerRow ∧
    (outputHeader st values).1.startColumn = st.startColumn ∧
    (outputHeader st values).1.lastColumn =
      getLastColumn (outputHeader st values).1.sheet st.headerRow st.startColumn ∧
    (outputHeader st values).1.columnNum =
      ((outputHeader st values).1.lastColumn : Int) - (st.startColumn : Int) + 1 ∧
    (outputHeader st values).1.header =
      (rangeValues (outputHeader st values).1.sheet
        (getHeaderRange (outputHeader st values).1)).flatten := by
  have hsheet : (outputHeader st values).1.sheet =
      st.sheet.writeValues st.headerRow st.startColumn [values] := rfl
  refine ⟨rfl, rfl, rfl, ?_, ?_, ?_, rfl, rfl, rfl, rfl, rfl, rfl, rfl⟩
  · intro h0
    show jsOrInt (some (values.length : Int)) 1 = (values.length : Int)
    exact jsOrInt_of_ne_zero 1 (by exact_mod_cast h0)
  · rw [hsheet]
    exact writeValues_single_get st.sheet st.headerRow st.startColumn values j hj
  · rw [hsheet]
    apply writeValues_frame
    intro hcon
    obtain ⟨h1, h2, h3, h4⟩ := hcon
    have hl : ([values] : List (List Value)).length = 1 := rfl
    rw [hl] at h2
    have hr : r = st.headerRow := by omega
    subst hr
    rw [Nat.sub_self] at h4
    have hv : ([values] : List (List Value)).getD 0 [] = values := rfl
    rw [hv] at h4
    exact hout ⟨rfl, h3, h4⟩

/-- C8 witness for `outputHeader_spec`: writing the concrete header
`["X","Y"]` on `cP6` puts `"Y"` at column `startColumn + 1` and keeps the
cached `lastRow`. -/
theorem outputHeader_spec_witness :
    (outputHeader cP6 [Value.vStr "X", Value.vStr "Y"]).1.sheet.cells 1 3 = Value.vStr "Y" ∧
    (outputHeader cP6 [Value.vStr "X", Value.vStr "Y"]).1.lastRow = cP6.lastRow := by
  have hm := outputHeader_spec cP6 [Value.vStr "X", Value.vStr "Y"] 1 (by decide) 5 9
    (by decide)
  exact ⟨hm.2.2.2.2.1, hm.2.2.2.2.2.2.1⟩

/-- `valueIndexOf` finds the first exact match: the returned index is in
range, holds the value, and no earlier position does. -/
theorem valueIndexOf_some {v : Value} {l : List Value} {i : Nat}
    (h : valueIndexOf v l = some i) :
    i < l.length ∧ l.getD i Value.vEmpty = v ∧
    ∀ j, j < i → l.getD j Value.vEmpty ≠ v := by
  induction l generalizing i with
  | nil => exact absurd h (by simp [valueIndexOf])
  | cons x xs ih =>
    rw [valueIndexOf] at h
    by_cases hx : x = v
    · rw [if_pos hx] at h
      have h0 : i = 0 := (Option.some.inj h).symm
      subst h0
      exact ⟨by simp, by simpa using hx, fun j hj => absurd hj (by omega)⟩
    · rw [if_neg hx] at h
      cases hi : valueIndexOf v xs with
      | none => rw [hi] at h; exact absurd h (by simp)
      | some i0 =>
        rw [hi] at h
        simp only [Option.map_some', Option.some.injEq] at h
        subst h
        obtain ⟨h1, h2, h3⟩ := ih hi
        refine ⟨by simp; omega, by simpa using h2, ?_⟩
        intro j hj
        cases j with
        | zero => simpa using hx
        | succ j0 =>
          simp only [List.getD_cons_succ]
          exact h3 j0 (by omega)

/-- `valueIndexOf` fails exactly when the value is absent. -/
theorem valueIndexOf_none {v : Value} {l : List Value} :
    valueIndexOf v l = none ↔ v ∉ l := by
  induction l with
  | nil => simp [valueIndexOf]
  | cons x xs ih =>
    rw [valueIndexOf]
    by_cases hx : x = v
    · rw [if_pos hx]
      simp [hx]
    · rw [if_neg hx]
      simp only [Option.map_eq_none', ih, List.mem_cons]
      constructor
      · intro hn hmem
        rcases hmem with hmem | hmem
        · exact hx hmem.symm
        · exact hn hmem
      · intro hn hmem
        exact hn (Or.inr hmem)

/-- C9: `getHeaderArrayIndexByColumnName` returns the 0-based position of
the first exact match of the column name in the cached header and fails
(`none`, the thrown column-not-found error) exactly when no header cell
matches; `getHeaderColumnByColumnName` is that index shifted by
`startColumn`.  Both are pure functions of the cached state: they neither
read nor mutate the sheet or the cache. -/
theorem headerIndexOf_spec (st : SheetController) (columnName : String) :
    (∀ i, getHeaderArrayIndexByColumnName st columnName = some i →
      i < st.header.length ∧ st.header.getD i Value.vEmpty = Value.vStr columnName ∧
      ∀ j, j < i → st.header.getD j Value.vEmpty ≠ Value.vStr columnName) ∧
    (getHeaderArrayIndexByColumnName st columnName = none ↔
      Value.vStr columnName ∉ st.header) ∧
    getHeaderColumnByColumnName st columnName =
      (getHeaderArrayIndexByColumnName st columnName).map (fun i => i + st.startColumn) := by
  refine ⟨?_, valueIndexOf_none, rfl⟩
  intro i hi
  exact valueIndexOf_some hi

/-- C9 witness for `headerIndexOf_spec`: the spec's P6 example — header
`["Name","Age","City"]` with `startColumn = 2` gives
`headerColumnOf("Age") = 3` and `headerIndexOf("Missing")` fails. -/
theorem headerIndexOf_spec_witness :
    getHeaderColumnByColumnName cP6 "Age" = some 3 ∧
    getHeaderArrayIndexByColumnName cP6 "Missing" = none := by
  constructor
  · rw [(headerIndexOf_spec cP6 "Age").2.2]
    decide
  · exact (headerIndexOf_spec cP6 "Missing").2.1.mpr (by decide)

/-- C10: `getRange` treats a `rowNum`/`columnNum` that is 0 (JS-falsy)
exactly like an absent field, replacing it by 1, so the dimensions it
forwards to the resource are never zero — a zero-row or zero-column
region can never be requested through this operation — and every region
the resource actually returns spans at least one row and one column (the
resource rejects non-positive dimensions; a negative count is forwarded
unchanged and raises there, so it never yields a region); consequently,
when the cached `columnNum` is 0, `headerRange()` addresses a one-row,
one-column range rather than an empty one. -/
theorem getRange_defaults (st : SheetController) (p : RangeAddress) :
    ((p.rowNum = none ∨ p.rowNum = some 0) → (st.getRange p).rowNum = 1) ∧
    ((p.columnNum = none ∨ p.columnNum = some 0) → (st.getRange p).columnNum = 1) ∧
    (st.getRange p).rowNum ≠ 0 ∧ (st.getRange p).columnNum ≠ 0 ∧
    (∀ v : Int, p.rowNum = some v → 0 ≤ v → 1 ≤ (st.getRange p).rowNum) ∧
    (∀ v : Int, p.columnNum = some v → 0 ≤ v → 1 ≤ (st.getRange p).columnNum) ∧
    (∀ r : RangeH, getRangeResource st p = some r → 1 ≤ r.rowNum ∧ 1 ≤ r.columnNum) ∧
    (st.columnNum = 0 →
      (getHeaderRange st).columnNum = 1 ∧ (getHeaderRange st).rowNum = 1) := by
  have hne : ∀ o : Option Int, jsOrInt o 1 ≠ 0 := by
    intro o
    cases o with
    | none => simp [jsOrInt]
    | some v =>
      by_cases hv : v = 0
      · simp [jsOrInt, hv]
      · simp [jsOrInt, hv]
  refine ⟨?_, ?_, hne p.rowNum, hne p.columnNum, ?_, ?_, ?_, ?_⟩
  · intro hp
    show jsOrInt p.rowNum 1 = 1
    rcases hp with hp | hp <;> (rw [hp]; rfl)
  · intro hp
    show jsOrInt p.columnNum 1 = 1
    rcases hp with hp | hp <;> (rw [hp]; rfl)
  · intro v hp hv
    show 1 ≤ jsOrInt p.rowNum 1
    rw [hp]
    by_cases hv0 : v = 0
    · rw [hv0]; rfl
    · rw [jsOrInt_of_ne_zero 1 hv0]; omega
  · intro v hp hv
    show 1 ≤ jsOrInt p.columnNum 1
    rw [hp]
    by_cases hv0 : v = 0
    · rw [hv0]; rfl
    · rw [jsOrInt_of_ne_zero 1 hv0]; omega
  · intro r hr
    unfold getRangeResource at hr
    by_cases hc : 1 ≤ (st.getRange p).rowNum ∧ 1 ≤ (st.getRange p).columnNum
    · rw [if_pos hc] at hr
      rw [← Option.some.inj hr]
      exact hc
    · rw [if_neg hc] at hr
      exact absurd hr (by simp)
  · intro h0
    constructor
    · show jsOrInt (some st.columnNum) 1 = 1
      rw [h0]
      rfl
    · rfl

/-- C10 witness for `getRange_defaults`: a request with `rowNum` absent
and `columnNum = 0` yields a 1 × 1 region. -/
theorem getRange_defaults_witness :
    (cP6.getRange { startRow := 1, startColumn := 1, columnNum := some 0 }).rowNum = 1 ∧
    (cP6.getRange { startRow := 1, startColumn := 1, columnNum := some 0 }).columnNum = 1 := by
  have hm := getRange_defaults cP6 { startRow := 1, startColumn := 1, columnNum := some 0 }
  exact ⟨hm.1 (Or.inl rfl), hm.2.1 (Or.inr rfl)⟩

end SheetCtrl
